import Mathlib

/-!
Verification of the hassette-examples apps.

Each app in the repository is a thin event handler: it receives a state-change
or service-call event from the host framework and issues zero or more commands
back (turn on/off, set state, call service), possibly logging along the way.
We embed each handler as a pure Lean function from its inputs (configuration,
the relevant state values) to the pair of emitted log entries and commands.
Rationals stand for Python floats (only comparisons occur, never rounding);
log messages are modelled by their templates, with interpolated values elided.
-/

/-- Severity-tagged log entry; the message is the static template of the
corresponding logger call in the Python source. -/
inductive LogEntry
  | info (msg : String)
  | warning (msg : String)
  | debug (msg : String)
  deriving DecidableEq

/-- A command issued back to the host framework through its API:
api.turn_on, api.turn_off (with optional domain), api.set_state (with
attributes), api.call_service (with a target entity). -/
inductive Command
  | turn_on (entity : String)
  | turn_off (entity : String) (domain : Option String)
  | set_state (entity : String) (value : String) (attributes : List (String × String))
  | call_service (domain : String) (service : String) (target_entity : String)
  deriving DecidableEq

/-- A Python value as seen by the climate handlers: the state value of a
sensor entity is None, a string, or a number. -/
inductive PyVal
  | noneV
  | str (s : String)
  | num (q : ℚ)
  deriving DecidableEq

/-- Numeric value of a list of decimal digit characters. -/
def digitsVal (cs : List Char) : ℕ :=
  cs.foldl (fun a c => a * 10 + (c.toNat - 48)) 0

/-- Parse an unsigned decimal literal (digits, optionally with a decimal
point), as accepted by Python float() for plain decimal notation. -/
def parseUnsignedFloat (cs : List Char) : Option ℚ :=
  let intPart := cs.takeWhile Char.isDigit
  let rest := cs.dropWhile Char.isDigit
  match rest with
  | [] => if intPart.isEmpty then none else some ((digitsVal intPart : ℚ))
  | c :: frac =>
      if c = '.' ∧ frac.all Char.isDigit ∧ (intPart ≠ [] ∨ frac ≠ []) then
        some ((digitsVal intPart : ℚ) + (digitsVal frac : ℚ) / ((10 : ℚ) ^ frac.length))
      else none

/-- Drop leading and trailing whitespace, as Python float() does on strings. -/
def stripSpaces (cs : List Char) : List Char :=
  ((cs.dropWhile Char.isWhitespace).reverse.dropWhile Char.isWhitespace).reverse

/-- Model of Python float(s) on a string: optional sign and a decimal
literal, returning none where float() raises ValueError. Exotic forms
(exponents, inf, nan) are out of scope; the claims only condition on parse
success or failure. -/
def parseFloat (s : String) : Option ℚ :=
  match stripSpaces s.toList with
  | [] => none
  | c :: cs =>
      if c = '-' then (parseUnsignedFloat cs).map (fun q => -q)
      else if c = '+' then parseUnsignedFloat cs
      else parseUnsignedFloat (c :: cs)

/-- Embeds the defensive coercion shared by ClimateController.on_temp_increased
and on_temp_decreased (climate_controller.py lines 80-83 and 104-107):
temp = float(new_state.value) if new_state.value is not None else None,
with ValueError and TypeError mapped to None. Totality of this function (and
of the handlers below) models the absence of any escaping exception. -/
def tryFloat (v : PyVal) : Option ℚ :=
  match v with
  | PyVal.noneV => none
  | PyVal.str s => parseFloat s
  | PyVal.num q => some q

/-- Embeds ClimateControllerConfig (climate_controller.py). -/
structure ClimateControllerConfig where
  temp_threshold : ℚ := 24
  ac_switch : String := "switch.ac"
  climate_entity : String := "climate.hvac"
  check_interval : ℚ := 300
  deriving DecidableEq

/-- The default climate configuration. -/
def climateCfg : ClimateControllerConfig := {}

/-- Embeds ClimateController.on_temp_increased: log the change, coerce the
new state value, and turn the AC switch on when the value strictly exceeds
the threshold. The handler also receives old_state and entity_id, used only
inside log interpolations, which are elided here. -/
def climateOnTempIncreased (cfg : ClimateControllerConfig) (new_value : PyVal) :
    List LogEntry × List Command :=
  let log0 := LogEntry.info "temperature increased"
  match tryFloat new_value with
  | some temp =>
      if temp > cfg.temp_threshold then
        ([log0, LogEntry.info "Temperature exceeds threshold, turning on AC"],
         [Command.turn_on cfg.ac_switch])
      else ([log0], [])
  | none => ([log0], [])

/-- Embeds ClimateController.on_temp_decreased: log the change, coerce the
new state value, and turn the AC switch off when the value is at most the
threshold. -/
def climateOnTempDecreased (cfg : ClimateControllerConfig) (new_value : PyVal) :
    List LogEntry × List Command :=
  let log0 := LogEntry.info "temperature decreased"
  match tryFloat new_value with
  | some temp =>
      if temp ≤ cfg.temp_threshold then
        ([log0, LogEntry.info "Temperature below threshold, turning off AC"],
         [Command.turn_off cfg.ac_switch none])
      else ([log0], [])
  | none => ([log0], [])

/-- C1: when the new state value parses as a float q, on_temp_increased
issues turn_on(ac_switch) iff q strictly exceeds temp_threshold, and issues
no command at all when q does not exceed it. -/
theorem climate_increase_cmd_iff (cfg : ClimateControllerConfig) (v : PyVal) (q : ℚ)
    (h : tryFloat v = some q) :
    (Command.turn_on cfg.ac_switch ∈ (climateOnTempIncreased cfg v).2
      ↔ cfg.temp_threshold < q)
    ∧ (¬ cfg.temp_threshold < q → (climateOnTempIncreased cfg v).2 = []) := by
  unfold climateOnTempIncreased
  rw [h]
  by_cases hc : cfg.temp_threshold < q <;> simp [hc]

/-- Witness for C1 at the concrete value 30 against the default threshold 24. -/
theorem climate_increase_cmd_iff_w :
    tryFloat (PyVal.num 30) = some 30
    ∧ ((Command.turn_on climateCfg.ac_switch ∈ (climateOnTempIncreased climateCfg (PyVal.num 30)).2
          ↔ climateCfg.temp_threshold < 30)
       ∧ (¬ climateCfg.temp_threshold < 30 → (climateOnTempIncreased climateCfg (PyVal.num 30)).2 = [])) :=
  ⟨rfl, climate_increase_cmd_iff climateCfg (PyVal.num 30) 30 rfl⟩

/-- C2: when the new state value parses as a float q, on_temp_decreased
issues turn_off(ac_switch) iff q is at most temp_threshold; at q exactly
equal to the threshold the decrease handler turns the AC off while the
increase handler issues nothing. -/
theorem climate_decrease_cmd_iff (cfg : ClimateControllerConfig) (v : PyVal) (q : ℚ)
    (h : tryFloat v = some q) :
    (Command.turn_off cfg.ac_switch none ∈ (climateOnTempDecreased cfg v).2
      ↔ q ≤ cfg.temp_threshold)
    ∧ (q = cfg.temp_threshold →
        (climateOnTempDecreased cfg v).2 = [Command.turn_off cfg.ac_switch none]
        ∧ (climateOnTempIncreased cfg v).2 = []) := by
  unfold climateOnTempDecreased climateOnTempIncreased
  rw [h]
  constructor
  · by_cases hc : q ≤ cfg.temp_threshold <;> simp [hc]
  · intro he
    subst he
    simp

/-- Witness for C2 at the concrete value 24, equal to the default threshold. -/
theorem climate_decrease_cmd_iff_w :
    tryFloat (PyVal.num 24) = some 24
    ∧ ((Command.turn_off climateCfg.ac_switch none ∈ (climateOnTempDecreased climateCfg (PyVal.num 24)).2
          ↔ (24 : ℚ) ≤ climateCfg.temp_threshold)
       ∧ ((24 : ℚ) = climateCfg.temp_threshold →
            (climateOnTempDecreased climateCfg (PyVal.num 24)).2
              = [Command.turn_off climateCfg.ac_switch none]
            ∧ (climateOnTempIncreased climateCfg (PyVal.num 24)).2 = [])) :=
  ⟨rfl, climate_decrease_cmd_iff climateCfg (PyVal.num 24) 24 rfl⟩

/-- C3: when the new state value is None or fails to parse as a float, both
temperature handlers issue no command; their totality models that no
exception escapes. -/
theorem climate_unparsable_no_cmd (cfg : ClimateControllerConfig) (v : PyVal)
    (h : v = PyVal.noneV ∨ tryFloat v = none) :
    (climateOnTempIncreased cfg v).2 = [] ∧ (climateOnTempDecreased cfg v).2 = [] := by
  have hn : tryFloat v = none := by
    rcases h with h | h
    · rw [h]; rfl
    · exact h
  unfold climateOnTempIncreased climateOnTempDecreased
  rw [hn]
  exact ⟨rfl, rfl⟩

/-- Witness for C3 at the concrete unparsable string value "unavailable". -/
theorem climate_unparsable_no_cmd_w :
    (PyVal.str "unavailable" = PyVal.noneV ∨ tryFloat (PyVal.str "unavailable") = none)
    ∧ (climateOnTempIncreased climateCfg (PyVal.str "unavailable")).2 = []
    ∧ (climateOnTempDecreased climateCfg (PyVal.str "unavailable")).2 = [] :=
  ⟨Or.inr (by decide),
   climate_unparsable_no_cmd climateCfg (PyVal.str "unavailable") (Or.inr (by decide))⟩

/-- The value of a cover entity state (cover_scheduler.py). -/
structure CoverState where
  value : Option String
  deriving DecidableEq

/-- Embeds CACHE_KEY_POSITIONS (cover_scheduler.py). -/
def CACHE_KEY_POSITIONS : String := "last_cover_positions"

/-- The process-wide key/value cache, restricted to the positions dicts this
app stores: a partial map from keys to dicts of entity id to cover value. -/
def Cache : Type := String → Option (List (String × Option String))

/-- Embeds cache.get. -/
def cacheGet (c : Cache) (k : String) : Option (List (String × Option String)) :=
  c k

/-- Embeds item assignment on the cache. -/
def cacheSet (c : Cache) (k : String) (v : List (String × Option String)) : Cache :=
  fun k2 => if k2 = k then some v else c k2

/-- Embeds CoverScheduler._get_cover_positions: the dict mapping each entity
id in states.cover to that cover's current value, in iteration order. -/
def getCoverPositions (covers : List (String × CoverState)) :
    List (String × Option String) :=
  covers.map (fun p => (p.1, p.2.value))

/-- Embeds CoverScheduler.on_shutdown: store the current positions in the
cache under CACHE_KEY_POSITIONS. -/
def coverOnShutdown (covers : List (String × CoverState)) (c : Cache) : Cache :=
  cacheSet c CACHE_KEY_POSITIONS (getCoverPositions covers)

/-- Embeds the cache read at the start of CoverScheduler.on_initialize:
cached = self.cache.get(CACHE_KEY_POSITIONS). -/
def coverInitCachedRead (c : Cache) : Option (List (String × Option String)) :=
  cacheGet c CACHE_KEY_POSITIONS

/-- Embeds CoverScheduler.open_all_covers: one open_cover service call per
cover entity, each preceded by an info log. -/
def coverOpenAllCovers (covers : List (String × CoverState)) :
    List LogEntry × List Command :=
  (LogEntry.info "Opening all covers (weekday morning schedule)"
     :: covers.map (fun _ => LogEntry.info "Opening cover"),
   covers.map (fun p => Command.call_service "cover" "open_cover" p.1))

/-- Attributes of the sun entity used by report_sun_state. -/
structure SunAttributes where
  elevation : Option ℚ
  rising : Option Bool
  next_setting : Option String
  deriving DecidableEq

/-- State of the sun entity. -/
structure SunState where
  value : Option String
  attributes : SunAttributes
  deriving DecidableEq

/-- Embeds CoverScheduler.report_sun_state: info log when the sun entity is
present, warning log when it is missing; no command in either case, and
totality models that no exception is raised. -/
def coverReportSunState (sun : Option SunState) : List LogEntry × List Command :=
  match sun with
  | some _ => ([LogEntry.info "Sun state"], [])
  | none => ([LogEntry.warning "Sun entity not found"], [])

/-- C4: the positions dict read back from the cache at the next startup is
exactly the dict written at the previous shutdown, and that dict maps every
entity id in states.cover to that cover's current value. -/
theorem cover_positions_roundtrip (covers : List (String × CoverState)) (c : Cache) :
    coverInitCachedRead (coverOnShutdown covers c) = some (getCoverPositions covers)
    ∧ ∀ e v, (e, v) ∈ getCoverPositions covers
        ↔ ∃ st : CoverState, (e, st) ∈ covers ∧ st.value = v := by
  constructor
  · unfold coverInitCachedRead coverOnShutdown cacheGet cacheSet
    simp
  · intro e v
    unfold getCoverPositions
    constructor
    · intro hm
      rcases List.mem_map.mp hm with ⟨p, hp, hpe⟩
      exact ⟨p.2, by rw [← (Prod.mk.injEq _ _ _ _).mp hpe |>.1]; exact hp,
             (Prod.mk.injEq _ _ _ _).mp hpe |>.2⟩
    · rintro ⟨st, hmem, hv⟩
      exact List.mem_map.mpr ⟨(e, st), hmem, by rw [hv]⟩

/-- A state-change event on the host bus, identified by its entity id. -/
structure BusEvent where
  entity_id : String
  deriving DecidableEq

/-- Modelled from the spec: the host framework bus, which is not part of this
repository, invokes a subscription's handler on each event matching the
subscribed entity-id pattern while the subscription is active, and a
subscription registered with the one-shot flag is deactivated after its
first invocation. Returns the number of handler invocations over the given
event sequence, starting from the given activity flag. -/
def runOnceSubscription (pattern : String) (once : Bool) :
    Bool → List BusEvent → ℕ
  | _, [] => 0
  | active, e :: es =>
      if active = true ∧ e.entity_id = pattern then
        1 + runOnceSubscription pattern once (active && !once) es
      else
        runOnceSubscription pattern once active es

/-- Embeds the subscription registered by CoverScheduler.on_initialize:
bus.on_state_change on the exact pattern sun.sun with handler
on_sun_first_change and once=True; the count of handler invocations over a
run delivering the given events. -/
def coverSunFirstChangeInvocations (events : List BusEvent) : ℕ :=
  runOnceSubscription "sun.sun" true true events

/-- An inactive subscription is never invoked again. -/
theorem runOnceSubscription_inactive (p : String) (o : Bool) (es : List BusEvent) :
    runOnceSubscription p o false es = 0 := by
  induction es with
  | nil => rfl
  | cons e es ih => simpa [runOnceSubscription] using ih

/-- A one-shot subscription is invoked at most once from any activity flag. -/
theorem runOnceSubscription_once_le_one (p : String) (a : Bool) (es : List BusEvent) :
    runOnceSubscription p true a es ≤ 1 := by
  induction es generalizing a with
  | nil => simp [runOnceSubscription]
  | cons e es ih =>
      unfold runOnceSubscription
      by_cases h : a = true ∧ e.entity_id = p
      · rw [if_pos h]
        have hf : (a && !true) = false := by cases a <;> rfl
        rw [hf, runOnceSubscription_inactive]
      · rw [if_neg h]
        exact ih a

/-- C7: over any sequence of delivered events, CoverScheduler's one-shot
sun.sun subscription invokes on_sun_first_change at most once, however many
further sun.sun state changes occur. -/
theorem cover_sun_once_at_most_one (events : List BusEvent) :
    coverSunFirstChangeInvocations events ≤ 1 :=
  runOnceSubscription_once_le_one "sun.sun" true events

/-- Embeds PresenceTrackerConfig (presence_tracker.py). -/
structure PresenceTrackerConfig where
  tracker_entity : String := "device_tracker.demo_paulus"
  person_name : String := "Unknown"
  status_interval : ℚ := 120
  deriving DecidableEq

/-- The default presence configuration. -/
def ptCfg : PresenceTrackerConfig := {}

/-- The custom sensor entity id built by PresenceTracker:
sensor.<person_name lowercased>_presence. -/
def ptSensorEntity (cfg : PresenceTrackerConfig) : String :=
  "sensor." ++ cfg.person_name.toLower ++ "_presence"

/-- The attributes PresenceTracker attaches to every set_state call. -/
def ptAttributes (cfg : PresenceTrackerConfig) : List (String × String) :=
  [("friendly_name", cfg.person_name ++ " Presence"), ("source", cfg.tracker_entity)]

/-- The mutable state of a PresenceTracker instance: the dynamic zone.home
subscription handle (None or a live subscription, modelled as Option Unit),
together with the tracker value most recently observed by the app, a history
variable recording what on_initialize looked up or the last on_tracker_change
new value. -/
structure PTState where
  zone_subscription : Option Unit
  observed : Option String
  deriving DecidableEq

/-- Embeds PresenceTracker.on_initialize, given the states lookup of the
tracker entity (none when the entity is absent, otherwise its value):
initial_status is home exactly when the tracker state exists and its value
is home; set the custom presence sensor; when the status is away, subscribe
to zone.home. Subscription registrations and log lines carry no command. -/
def ptInit (cfg : PresenceTrackerConfig) (tracker_state : Option (Option String)) :
    PTState × List Command :=
  let initial_status :=
    match tracker_state with
    | some v => if v = some "home" then "home" else "away"
    | none => "away"
  let cmds := [Command.set_state (ptSensorEntity cfg) initial_status (ptAttributes cfg)]
  let sub : Option Unit := if initial_status = "away" then some () else none
  (⟨sub, Option.join tracker_state⟩, cmds)

/-- Embeds PresenceTracker.on_tracker_change, given the new tracker value:
update the custom presence sensor; subscribe to zone.home when the person
left home and no subscription is live; cancel and clear the subscription
when the person returned home and one is live. -/
def ptOnTrackerChange (cfg : PresenceTrackerConfig) (s : PTState)
    (newVal : Option String) : PTState × List Command :=
  let status := if newVal = some "home" then "home" else "away"
  let cmds := [Command.set_state (ptSensorEntity cfg) status (ptAttributes cfg)]
  let sub : Option Unit :=
    if newVal ≠ some "home" ∧ s.zone_subscription = none then some ()
    else if newVal = some "home" ∧ s.zone_subscription ≠ none then none
    else s.zone_subscription
  (⟨sub, newVal⟩, cmds)

/-- The C8 invariant: a zone subscription is live exactly when the most
recently observed tracker value is not home. -/
def ptInv (s : PTState) : Prop :=
  s.zone_subscription ≠ none ↔ s.observed ≠ some "home"

instance (s : PTState) : Decidable (ptInv s) :=
  inferInstanceAs (Decidable (s.zone_subscription ≠ none ↔ s.observed ≠ some "home"))

/-- C8: the subscription/presence invariant is established by on_initialize
for every possible tracker lookup and preserved by every invocation of
on_tracker_change. -/
theorem pt_zone_subscription_inv (cfg : PresenceTrackerConfig)
    (t : Option (Option String)) (s : PTState) (v : Option String) :
    ptInv (ptInit cfg t).1 ∧ (ptInv s → ptInv (ptOnTrackerChange cfg s v).1) := by
  constructor
  · unfold ptInv ptInit
    cases t with
    | none => simp
    | some w => by_cases h : w = some "home" <;> simp [h, Option.join]
  · intro _
    unfold ptInv ptOnTrackerChange
    by_cases h1 : v = some "home" <;> by_cases h2 : s.zone_subscription = none <;>
      simp [h1, h2]

/-- Witness for C8 at a concrete away state receiving a return home. -/
theorem pt_zone_subscription_inv_w :
    ptInv ⟨some (), some "work"⟩
    ∧ (ptInv (ptInit ptCfg none).1
       ∧ (ptInv ⟨some (), some "work"⟩ →
            ptInv (ptOnTrackerChange ptCfg ⟨some (), some "work"⟩ (some "home")).1)) :=
  ⟨by decide, pt_zone_subscription_inv ptCfg none ⟨some (), some "work"⟩ (some "home")⟩

/-- C9: every set_state command issued by on_initialize or on_tracker_change
for the custom presence sensor carries a value in the two-element set home
or away, and the value is home exactly when the tracker value is the string
home (None, any other value, or an absent tracker state maps to away). -/
theorem pt_set_state_values (cfg : PresenceTrackerConfig)
    (t : Option (Option String)) (s : PTState) (v : Option String) :
    (∀ e val attrs, Command.set_state e val attrs ∈ (ptInit cfg t).2 →
        (val = "home" ∨ val = "away") ∧ (val = "home" ↔ t = some (some "home")))
    ∧ (∀ e val attrs, Command.set_state e val attrs ∈ (ptOnTrackerChange cfg s v).2 →
        (val = "home" ∨ val = "away") ∧ (val = "home" ↔ v = some "home")) := by
  constructor
  · intro e val attrs hmem
    unfold ptInit at hmem
    cases t with
    | none =>
        simp at hmem
        simp [hmem.2.1]
    | some w =>
        by_cases h : w = some "home" <;> simp [h] at hmem <;> simp [h, hmem.2.1]
  · intro e val attrs hmem
    unfold ptOnTrackerChange at hmem
    by_cases h : v = some "home" <;> simp [h] at hmem <;> simp [h, hmem.2.1]

/-- Witness for C9: on_initialize with an absent tracker sets the sensor to
away, and away is not home. -/
theorem pt_set_state_values_w :
    (Command.set_state (ptSensorEntity ptCfg) "away" (ptAttributes ptCfg)
        ∈ (ptInit ptCfg none).2)
    ∧ (("away" = "home" ∨ "away" = "away")
        ∧ ("away" = "home" ↔ (none : Option (Option String)) = some (some "home"))) :=
  ⟨by simp [ptInit],
   (pt_set_state_values ptCfg none ⟨none, some "home"⟩ none).1
     (ptSensorEntity ptCfg) "away" (ptAttributes ptCfg) (by simp [ptInit])⟩

/-- Attributes of a device tracker entity used by log_status. -/
structure TrackerAttributes where
  latitude : Option ℚ
  longitude : Option ℚ
  deriving DecidableEq

/-- State of a device tracker entity. -/
structure TrackerState where
  value : Option String
  attributes : TrackerAttributes
  deriving DecidableEq

/-- Embeds PresenceTracker.log_status: info log when the tracker entity is
present, warning log when it is missing; no command either way, and totality
models that no exception is raised. -/
def ptLogStatus (tracker : Option TrackerState) : List LogEntry × List Command :=
  match tracker with
  | some _ => ([LogEntry.info "status"], [])
  | none => ([LogEntry.warning "Tracker entity not found"], [])

/-- C6: when the expected entity is missing from the states lookup,
CoverScheduler.report_sun_state and PresenceTracker.log_status each emit
exactly one warning and issue no command; both are total, so no exception
is raised. -/
theorem missing_entity_graceful :
    ((coverReportSunState none).1 = [LogEntry.warning "Sun entity not found"]
      ∧ (coverReportSunState none).2 = [])
    ∧ ((ptLogStatus none).1 = [LogEntry.warning "Tracker entity not found"]
      ∧ (ptLogStatus none).2 = []) :=
  ⟨⟨rfl, rfl⟩, rfl, rfl⟩

/-- Embeds MotionLightsConfig (motion_lights.py). -/
structure MotionLightsConfig where
  motion_entity : String := "binary_sensor.movement_backyard"
  light_entity : String := "light.kitchen_lights"
  boost_brightness : ℕ := 255
  default_brightness : ℕ := 100
  off_delay : ℚ := 60
  deriving DecidableEq

/-- The default motion lights configuration. -/
def mlCfg : MotionLightsConfig := {}

/-- Embeds MotionLights.on_motion_cleared, given the states lookup of the
light entity (none when absent, otherwise its value): turn the light off
exactly when the light state exists and its value is on, otherwise only a
debug log. -/
def motionOnMotionCleared (cfg : MotionLightsConfig)
    (light_state : Option (Option String)) : List LogEntry × List Command :=
  let log0 := LogEntry.info "Motion cleared"
  match light_state with
  | some v =>
      if v = some "on" then
        ([log0, LogEntry.info "Turning off light"],
         [Command.turn_off cfg.light_entity (some "light")])
      else ([log0, LogEntry.debug "already off"], [])
  | none => ([log0, LogEntry.debug "already off"], [])

/-- C10: on_motion_cleared issues turn_off for the configured light iff the
light state exists and its value is on; otherwise it issues no command. -/
theorem motion_cleared_turn_off_iff (cfg : MotionLightsConfig)
    (ls : Option (Option String)) :
    (Command.turn_off cfg.light_entity (some "light") ∈ (motionOnMotionCleared cfg ls).2
      ↔ ls = some (some "on"))
    ∧ (ls ≠ some (some "on") → (motionOnMotionCleared cfg ls).2 = []) := by
  unfold motionOnMotionCleared
  cases ls with
  | none => simp
  | some v => by_cases h : v = some "on" <;> simp [h]

/-- Witness for C10 at the concrete light state off. -/
theorem motion_cleared_turn_off_iff_w :
    ((some (some "off") : Option (Option String)) ≠ some (some "on"))
    ∧ ((Command.turn_off mlCfg.light_entity (some "light")
          ∈ (motionOnMotionCleared mlCfg (some (some "off"))).2
        ↔ (some (some "off") : Option (Option String)) = some (some "on"))
       ∧ ((some (some "off") : Option (Option String)) ≠ some (some "on") →
            (motionOnMotionCleared mlCfg (some (some "off"))).2 = [])) :=
  ⟨by decide, motion_cleared_turn_off_iff mlCfg (some (some "off"))⟩

/-- Payload data of a call_service event as received by SecurityMonitor. -/
structure CallServiceEventData where
  domain : String
  service : String
  deriving DecidableEq

/-- Embeds SecurityMonitor.on_lock_service_called: a single info log and no
command. -/
def securityOnLockServiceCalled (ev : CallServiceEventData) :
    List LogEntry × List Command :=
  ([LogEntry.info "Lock service called"], [])

/-- Embeds SecurityMonitor.on_moisture_detected, given the current lock
states: a warning, an info header, one info line per lock, and no command. -/
def securityOnMoistureDetected (locks : List (String × Option String)) :
    List LogEntry × List Command :=
  (LogEntry.warning "ALERT: Moisture detected on basement floor!"
     :: LogEntry.info "Current lock states during moisture alert:"
     :: locks.map (fun _ => LogEntry.info "lock state"),
   [])

/-- The C5 claim restricted to SecurityMonitor: some event delivered to one
of its two subscribed handlers makes it issue a command. -/
def SecurityMonitorIssuesCommand : Prop :=
  (∃ ev, (securityOnLockServiceCalled ev).2 ≠ [])
  ∨ (∃ locks, (securityOnMoistureDetected locks).2 ≠ [])

/-- C5 counterexample: SecurityMonitor never issues any command: both of its
subscribed handlers only log, on every possible event, refuting the claim
that every app issues at least one command. -/
theorem security_monitor_no_commands : ¬ SecurityMonitorIssuesCommand := by
  rintro (⟨ev, h⟩ | ⟨locks, h⟩) <;> exact h rfl

/-- C5 amended: ClimateController, CoverScheduler, MotionLights and
PresenceTracker each issue at least one command from some handler or
scheduled callback, while SecurityMonitor issues none: its handlers only
log. -/
theorem apps_issue_commands_amended :
    (climateOnTempIncreased climateCfg (PyVal.num 30)).2 = [Command.turn_on climateCfg.ac_switch]
    ∧ (coverOpenAllCovers [("cover.kitchen_window", ⟨some "open"⟩)]).2
        = [Command.call_service "cover" "open_cover" "cover.kitchen_window"]
    ∧ (motionOnMotionCleared mlCfg (some (some "on"))).2
        = [Command.turn_off mlCfg.light_entity (some "light")]
    ∧ (ptInit ptCfg none).2
        = [Command.set_state (ptSensorEntity ptCfg) "away" (ptAttributes ptCfg)]
    ∧ (∀ ev, (securityOnLockServiceCalled ev).2 = [])
    ∧ (∀ locks, (securityOnMoistureDetected locks).2 = []) :=
  ⟨by norm_num [climateOnTempIncreased, tryFloat, climateCfg],
   rfl, rfl, rfl, fun _ => rfl, fun _ => rfl⟩
